import Mathlib

/-!
Shallow embedding of the temporal segmentation core of the Albion Online
highlight maker: the combat-window detector (`src/combat_detector.py`,
`CombatDetector.detect_combat_segments`), the window expander (the buffer
loop at the end of the same function), and the clip extraction / merge
engine (`src/clip_extractor.py`, `ClipExtractor`).

Frame decoding, slot-image cropping and the CNN classifier are external
collaborators: a frame is modelled by the data the detector actually
consumes — its 8 slot classifications and its red-screen flag.
Frame indices and counters are embedded as `Int` (Python integers are
unbounded); the video's `fps` (a Python float read from the container) is
embedded as `ℚ`, and `int(...)` truncation is modelled explicitly.
-/

namespace Albion

/-- One slot classification, the classifier's output alphabet
(`'Normal' | 'Cooldown' | 'Empty'` in the Python source). -/
inductive SlotClass where
  | Normal
  | Cooldown
  | Empty
deriving DecidableEq

/-- The per-frame features the detector consumes: the 8 slot
classifications and the red-screen (death) flag. -/
structure FrameFeatures where
  slot_classes : List SlotClass
  is_red_screen : Bool
deriving DecidableEq

/-- `CombatDetector.MIN_MOUNTED_EMPTY_SLOTS = 4`. -/
def MIN_MOUNTED_EMPTY_SLOTS : Nat := 4

/-- `CombatDetector.COOLDOWN_START_FRAMES = 3`. -/
def COOLDOWN_START_FRAMES : Int := 3

/-- `CombatDetector.NO_COOLDOWN_END_SECONDS = 60`. -/
def NO_COOLDOWN_END_SECONDS : ℚ := 60

/-- `CombatDetector.CLIP_BEFORE_SECONDS = 120`. -/
def CLIP_BEFORE_SECONDS : ℚ := 120

/-- `CombatDetector.CLIP_AFTER_SECONDS = 120`. -/
def CLIP_AFTER_SECONDS : ℚ := 120

/-- `CombatDetector.is_mounted`: `slot_classes.count('Empty') >= 4`. -/
def is_mounted (slot_classes : List SlotClass) : Bool :=
  decide (MIN_MOUNTED_EMPTY_SLOTS ≤ slot_classes.count SlotClass.Empty)

/-- `CombatDetector.has_cooldown`: `'Cooldown' in slot_classes`. -/
def has_cooldown (slot_classes : List SlotClass) : Bool :=
  slot_classes.contains SlotClass.Cooldown

/-- A closed combat segment: the dict
`{'start_frame': …, 'end_frame': …, 'death': …}` once `end_frame` is set. -/
structure Segment where
  start_frame : Int
  end_frame : Int
  death : Bool
deriving DecidableEq

/-- The open segment held in `current_segment` while scanning:
`end_frame` is still `None`, so only `start_frame` and `death` are data. -/
structure CurrentSegment where
  start_frame : Int
  death : Bool
deriving DecidableEq

/-- The loop-carried state of `detect_combat_segments`:
`segments`, `current_segment`, `cooldown_frames`, `no_cooldown_frames`
and `frame_idx`. -/
structure DetState where
  segments : List Segment
  current_segment : Option CurrentSegment
  cooldown_frames : Int
  no_cooldown_frames : Int
  frame_idx : Int
deriving DecidableEq

/-- Lines 88–103 of `combat_detector.py`: update the cooldown streaks and
possibly open a new segment (`cooldown_frames >= COOLDOWN_START_FRAMES and
current_segment is None`, with
`start_frame = max(0, frame_idx - COOLDOWN_START_FRAMES + 1)`). -/
def updateStreaks (s : DetState) (f : FrameFeatures) : DetState :=
  if has_cooldown f.slot_classes then
    let cf := s.cooldown_frames + 1
    let cur :=
      if COOLDOWN_START_FRAMES ≤ cf ∧ s.current_segment = none then
        some { start_frame := max 0 (s.frame_idx - COOLDOWN_START_FRAMES + 1),
               death := false }
      else s.current_segment
    { s with cooldown_frames := cf, no_cooldown_frames := 0,
             current_segment := cur }
  else
    { s with no_cooldown_frames := s.no_cooldown_frames + 1,
             cooldown_frames := 0 }

/-- Lines 105–121 of `combat_detector.py`: the end-condition check.
End condition 1 (idle timeout, `no_cooldown_frames / fps >= 60`) is
evaluated first; end condition 2 (red screen) is an `elif`. -/
def closeCheck (fps : ℚ) (s : DetState) (f : FrameFeatures) : DetState :=
  match s.current_segment with
  | none => s
  | some c =>
    if NO_COOLDOWN_END_SECONDS ≤ (s.no_cooldown_frames : ℚ) / fps then
      { s with
          segments := s.segments ++
            [{ start_frame := c.start_frame,
               end_frame := s.frame_idx - s.no_cooldown_frames,
               death := c.death }],
          current_segment := none,
          no_cooldown_frames := 0 }
    else if f.is_red_screen then
      { s with
          segments := s.segments ++
            [{ start_frame := c.start_frame,
               end_frame := s.frame_idx,
               death := true }],
          current_segment := none,
          no_cooldown_frames := 0 }
    else s

/-- One iteration of the `while True` scan loop (lines 68–123): a mounted
frame only advances `frame_idx` (`continue`); otherwise the streaks are
updated, the end conditions checked, and `frame_idx` advances. -/
def detectStep (fps : ℚ) (s : DetState) (f : FrameFeatures) : DetState :=
  if is_mounted f.slot_classes then
    { s with frame_idx := s.frame_idx + 1 }
  else
    let s2 := closeCheck fps (updateStreaks s f) f
    { s2 with frame_idx := s2.frame_idx + 1 }

/-- The scan loop over the decoded frame stream. -/
def detectLoop (fps : ℚ) (s : DetState) : List FrameFeatures → DetState
  | [] => s
  | f :: fs => detectLoop fps (detectStep fps s f) fs

/-- The state right after `cap = cv2.VideoCapture(...)`: empty segment
list, no open segment, all counters and the frame index at 0. -/
def initState : DetState :=
  { segments := [], current_segment := none, cooldown_frames := 0,
    no_cooldown_frames := 0, frame_idx := 0 }

/-- The raw closed windows of a scan, including the stream-end
finalization (lines 127–130): a still-open segment is closed with
`end_frame = frame_idx - 1` and appended. -/
def rawSegments (fps : ℚ) (frames : List FrameFeatures) : List Segment :=
  let s := detectLoop fps initState frames
  match s.current_segment with
  | none => s.segments
  | some c =>
      s.segments ++
        [{ start_frame := c.start_frame, end_frame := s.frame_idx - 1,
           death := c.death }]

/-- Python `int(...)` applied to a nonnegative-or-negative rational:
truncation toward zero. -/
def pyTruncInt (q : ℚ) : Int :=
  if 0 ≤ q then ⌊q⌋ else -⌊-q⌋

/-- A segment after the buffer loop (lines 132–140): the raw segment
extended with the clip bounds and the four derived time fields. -/
structure ClipSegment extends Segment where
  clip_start_frame : Int
  clip_end_frame : Int
  start_time : ℚ
  end_time : ℚ
  clip_start_time : ℚ
  clip_end_time : ℚ
deriving DecidableEq

/-- Lines 133–140 of `combat_detector.py` for one segment:
`clip_start_frame = max(0, start_frame - int(CLIP_BEFORE_SECONDS * fps))`,
`clip_end_frame = min(frame_count - 1, end_frame + int(CLIP_AFTER_SECONDS * fps))`,
and the `frame / fps` time fields. -/
def expandSegment (fps : ℚ) (frame_count : Int) (seg : Segment) : ClipSegment :=
  let clip_start_frame := max 0 (seg.start_frame - pyTruncInt (CLIP_BEFORE_SECONDS * fps))
  let clip_end_frame := min (frame_count - 1) (seg.end_frame + pyTruncInt (CLIP_AFTER_SECONDS * fps))
  { seg with
      clip_start_frame := clip_start_frame,
      clip_end_frame := clip_end_frame,
      start_time := (seg.start_frame : ℚ) / fps,
      end_time := (seg.end_frame : ℚ) / fps,
      clip_start_time := (clip_start_frame : ℚ) / fps,
      clip_end_time := (clip_end_frame : ℚ) / fps }

/-- `CombatDetector.detect_combat_segments`, as a function of the video's
fps, its container frame count, and the decoded frame-feature stream:
the raw scan followed by the buffer-expansion loop. -/
def detect_combat_segments (fps : ℚ) (frame_count : Int)
    (frames : List FrameFeatures) : List ClipSegment :=
  (rawSegments fps frames).map (expandSegment fps frame_count)

/-! ### Integer-refined scan loop

The timeout test `no_cooldown_frames / fps >= 60` does not reduce inside
the kernel (rational normalization), so for running the detector on
concrete streams we use a refinement where the test is the integer
comparison `T ≤ no_cooldown_frames` for a threshold `T` with
`(T : ℚ) = NO_COOLDOWN_END_SECONDS * fps`; `closeCheckT_eq` below proves
it equal to the faithful `closeCheck` whenever `0 < fps`. -/

/-- `closeCheck` with the timeout test refined to `T ≤ no_cooldown_frames`. -/
def closeCheckT (T : Int) (s : DetState) (f : FrameFeatures) : DetState :=
  match s.current_segment with
  | none => s
  | some c =>
    if T ≤ s.no_cooldown_frames then
      { s with
          segments := s.segments ++
            [{ start_frame := c.start_frame,
               end_frame := s.frame_idx - s.no_cooldown_frames,
               death := c.death }],
          current_segment := none,
          no_cooldown_frames := 0 }
    else if f.is_red_screen then
      { s with
          segments := s.segments ++
            [{ start_frame := c.start_frame,
               end_frame := s.frame_idx,
               death := true }],
          current_segment := none,
          no_cooldown_frames := 0 }
    else s

/-- `detectStep` built on `closeCheckT`. -/
def detectStepT (T : Int) (s : DetState) (f : FrameFeatures) : DetState :=
  if is_mounted f.slot_classes then
    { s with frame_idx := s.frame_idx + 1 }
  else
    let s2 := closeCheckT T (updateStreaks s f) f
    { s2 with frame_idx := s2.frame_idx + 1 }

/-- `detectLoop` built on `detectStepT`. -/
def detectLoopT (T : Int) (s : DetState) : List FrameFeatures → DetState
  | [] => s
  | f :: fs => detectLoopT T (detectStepT T s f) fs

/-! ### Concrete frames and streams used by the claims -/

/-- A non-mounted frame with one slot on cooldown, no red screen. -/
def cdF : FrameFeatures :=
  ⟨[SlotClass.Cooldown, SlotClass.Normal, SlotClass.Normal, SlotClass.Normal,
    SlotClass.Normal, SlotClass.Normal, SlotClass.Normal, SlotClass.Normal], false⟩

/-- A non-mounted frame with no cooldown slots, no red screen. -/
def ncdF : FrameFeatures := ⟨List.replicate 8 SlotClass.Normal, false⟩

/-- A mounted frame (all 8 slots `Empty`). -/
def mntF : FrameFeatures := ⟨List.replicate 8 SlotClass.Empty, false⟩

/-- A non-mounted, no-cooldown frame whose red-screen flag is set. -/
def redNcdF : FrameFeatures := ⟨List.replicate 8 SlotClass.Normal, true⟩

/-- A non-mounted cooldown frame whose red-screen flag is set. -/
def redCdF : FrameFeatures :=
  ⟨[SlotClass.Cooldown, SlotClass.Normal, SlotClass.Normal, SlotClass.Normal,
    SlotClass.Normal, SlotClass.Normal, SlotClass.Normal, SlotClass.Normal], true⟩

/-- Stream for the death-precedence scenario at fps = 1: three cooldown
frames (window opens, start 0), 59 quiet frames, then a frame that is both
the 60-th consecutive quiet frame (idle timeout fires) and red-screen. -/
def c1stream : List FrameFeatures :=
  [cdF, cdF, cdF] ++ List.replicate 59 ncdF ++ [redNcdF]

/-- The 36000-frame stream of the concrete scenario: cooldown exactly on
frames 100–102, everything else quiet, never mounted, never red. -/
def c3stream : List FrameFeatures :=
  List.replicate 100 ncdF ++ List.replicate 3 cdF ++ List.replicate 35897 ncdF

/-! ### Clip extraction and merge engine (`src/clip_extractor.py`)

The cv2 capture is modelled by the map from a frame position to the frame
decoded there (`none` = the read fails: unreadable range, or a source
that could not be opened at all). -/

/-- The copy loop of `ClipExtractor.extract_clip` (lines 42–49): walk the
positions from `start_frame`, stop at the first failed read or once past
`end_frame`; returns the frames written to the output clip. The fuel is
the size of the inclusive range. -/
def extractLoop (read : Int → Option α) : Nat → Int → List α
  | 0, _ => []
  | fuel + 1, idx =>
    match read idx with
    | none => []
    | some fr => fr :: extractLoop read fuel (idx + 1)

/-- `ClipExtractor.extract_clip`: the frames written to the output clip
together with the function's return value — the constant `True` of
line 54, whatever happened during the copy loop. -/
def extract_clip (read : Int → Option α) (start_frame end_frame : Int) :
    List α × Bool :=
  (extractLoop read (end_frame + 1 - start_frame).toNat start_frame, true)

/-- `ClipExtractor.merge_clips`'s return value: `False` on an empty clip
list (line 66–67, before any output writer is created), `True` otherwise. -/
def merge_clips (clip_paths : List β) : Bool :=
  if clip_paths.isEmpty then false else true

/-- The observable outcome of `extract_and_merge_segments`: its return
value, how many per-window extractions reported success (`clip_paths`),
whether the merged video was written, and the sidecar contents
(`segments` list and `total_segments`) if the JSON was written. -/
structure MergeOutcome where
  success : Bool
  clips_extracted : Nat
  merged_written : Bool
  sidecar : Option (List ClipSegment × Nat)
deriving DecidableEq

/-- `ClipExtractor.extract_and_merge_segments` (lines 111–154),
parameterized by the per-window boolean that `extract_clip` returns for
each segment: empty segment list → `False` with no output; otherwise the
windows whose extraction succeeded become `clip_paths`; if any survive,
the merge runs and the sidecar is written with the **full** `segments`
list and `total_segments = len(segments)`. -/
def extract_and_merge_core (extractOk : ClipSegment → Bool)
    (segments : List ClipSegment) : MergeOutcome :=
  if segments = [] then
    { success := false, clips_extracted := 0, merged_written := false,
      sidecar := none }
  else
    let clip_paths := segments.filter extractOk
    if clip_paths.isEmpty then
      { success := false, clips_extracted := 0, merged_written := false,
        sidecar := none }
    else
      { success := true,
        clips_extracted := clip_paths.length,
        merged_written := merge_clips clip_paths,
        sidecar := some (segments, segments.length) }

/-- `extract_and_merge_segments` with the per-window success bit taken
from the actual `extract_clip` call on the window's clip range. -/
def extract_and_merge_segments (read : Int → Option α)
    (segments : List ClipSegment) : MergeOutcome :=
  extract_and_merge_core
    (fun seg => (extract_clip read seg.clip_start_frame seg.clip_end_frame).2)
    segments

/-! ### Concrete windows and extraction outcomes used by claim C4 -/

/-- A concrete expanded window (clip range `[0, 2]`). -/
def c4seg0 : ClipSegment :=
  { start_frame := 0, end_frame := 1, death := false,
    clip_start_frame := 0, clip_end_frame := 2,
    start_time := 0, end_time := 1, clip_start_time := 0, clip_end_time := 2 }

/-- A second concrete expanded window (clip range `[4, 8]`). -/
def c4seg1 : ClipSegment :=
  { start_frame := 5, end_frame := 6, death := false,
    clip_start_frame := 4, clip_end_frame := 8,
    start_time := 5, end_time := 6, clip_start_time := 4, clip_end_time := 8 }

/-- A per-window extraction outcome that succeeds exactly on windows
starting at frame 0 — so `c4seg0` extracts and `c4seg1` fails. -/
def c4oracle (w : ClipSegment) : Bool :=
  decide (w.start_frame = 0)

/-- The expanded window produced on the three-cooldown-frame stream at
fps = 1 with frame_count = 3, used as the C7 witness input. -/
def c7window : ClipSegment :=
  { start_frame := 0, end_frame := 2, death := false,
    clip_start_frame := 0, clip_end_frame := 2,
    start_time := 0, end_time := 2, clip_start_time := 0, clip_end_time := 2 }

/-! ### Derived views of the detector state -/

/-- The start frames of all windows a state accounts for: the closed ones
in order, then the open one if any. -/
def windowStarts (s : DetState) : List Int :=
  s.segments.map Segment.start_frame ++
    (s.current_segment.map CurrentSegment.start_frame).toList

/-- How many windows are open in a state (0 or 1 by construction:
`current_segment` is a single optional slot). -/
def openWindowCount (s : DetState) : Nat :=
  s.current_segment.toList.length

/-- The scan-loop invariant: counters are nonnegative and bounded by the
frame index, the open window (if any) starts before the 2-frames-ago
mark and before the quiet streak began, closed windows are well-formed,
lie strictly in the past, and their starts are strictly sorted. -/
structure DetInv (s : DetState) : Prop where
  idx_nonneg : 0 ≤ s.frame_idx
  cf_nonneg : 0 ≤ s.cooldown_frames
  cf_le : s.cooldown_frames ≤ s.frame_idx
  ncf_nonneg : 0 ≤ s.no_cooldown_frames
  cur_start_nonneg : ∀ c, s.current_segment = some c → 0 ≤ c.start_frame
  cur_start_lt : ∀ c, s.current_segment = some c →
    c.start_frame + 2 < s.frame_idx
  cur_ncf : ∀ c, s.current_segment = some c →
    c.start_frame + s.no_cooldown_frames < s.frame_idx
  cur_after : ∀ c, s.current_segment = some c →
    ∀ p ∈ s.segments, p.start_frame < c.start_frame
  seg_bounds : ∀ p ∈ s.segments, 0 ≤ p.start_frame ∧
    p.start_frame ≤ p.end_frame ∧ p.end_frame < s.frame_idx ∧
    p.start_frame + 2 < s.frame_idx
  seg_sorted : s.segments.Pairwise (fun a b => a.start_frame < b.start_frame)

/-! ## Lemmas: the integer refinement agrees with the faithful loop -/

theorem timeout_iff (fps : ℚ) (T n : Int) (hf : 0 < fps)
    (hT : (T : ℚ) = NO_COOLDOWN_END_SECONDS * fps) :
    (NO_COOLDOWN_END_SECONDS ≤ (n : ℚ) / fps) ↔ T ≤ n := by
  rw [le_div_iff₀ hf, ← hT, Int.cast_le]

theorem closeCheckT_eq (fps : ℚ) (T : Int) (hf : 0 < fps)
    (hT : (T : ℚ) = NO_COOLDOWN_END_SECONDS * fps) (s : DetState)
    (f : FrameFeatures) : closeCheck fps s f = closeCheckT T s f := by
  unfold closeCheck closeCheckT
  cases s.current_segment with
  | none => rfl
  | some c =>
      simp only [propext (timeout_iff fps T s.no_cooldown_frames hf hT)]

theorem detectStepT_eq (fps : ℚ) (T : Int) (hf : 0 < fps)
    (hT : (T : ℚ) = NO_COOLDOWN_END_SECONDS * fps) (s : DetState)
    (f : FrameFeatures) : detectStep fps s f = detectStepT T s f := by
  unfold detectStep detectStepT
  rw [closeCheckT_eq fps T hf hT]

theorem detectLoopT_eq (fps : ℚ) (T : Int) (hf : 0 < fps)
    (hT : (T : ℚ) = NO_COOLDOWN_END_SECONDS * fps) (s : DetState)
    (fs : List FrameFeatures) : detectLoop fps s fs = detectLoopT T s fs := by
  induction fs generalizing s with
  | nil => rfl
  | cons f fs ih =>
      simp only [detectLoop, detectLoopT, detectStepT_eq fps T hf hT, ih]

theorem detectLoopT_append (T : Int) (s : DetState)
    (l1 l2 : List FrameFeatures) :
    detectLoopT T s (l1 ++ l2) = detectLoopT T (detectLoopT T s l1) l2 := by
  induction l1 generalizing s with
  | nil => rfl
  | cons f fs ih =>
      simp only [List.cons_append, detectLoopT]
      exact ih (detectStepT T s f)

/-! ## Lemmas: closed forms for runs of identical quiet frames -/

theorem detectStepT_quiet_idle (T : Int) (s : DetState) (f : FrameFeatures)
    (hm : is_mounted f.slot_classes = false)
    (hc : has_cooldown f.slot_classes = false)
    (hcur : s.current_segment = none) :
    detectStepT T s f =
      { s with cooldown_frames := 0,
               no_cooldown_frames := s.no_cooldown_frames + 1,
               frame_idx := s.frame_idx + 1 } := by
  simp [detectStepT, updateStreaks, closeCheckT, hm, hc, hcur]

theorem detectLoopT_quietRun_idle (T : Int) (f : FrameFeatures)
    (hm : is_mounted f.slot_classes = false)
    (hc : has_cooldown f.slot_classes = false) :
    ∀ (k : Nat) (s : DetState), s.current_segment = none →
      s.cooldown_frames = 0 →
      detectLoopT T s (List.replicate k f) =
        { s with no_cooldown_frames := s.no_cooldown_frames + k,
                 frame_idx := s.frame_idx + k } := by
  intro k
  induction k with
  | zero => intro s hcur hcf; simp [detectLoopT]
  | succ k ih =>
      intro s hcur hcf
      rw [List.replicate_succ]
      simp only [detectLoopT]
      rw [detectStepT_quiet_idle T s f hm hc hcur]
      rw [ih { s with cooldown_frames := 0,
                      no_cooldown_frames := s.no_cooldown_frames + 1,
                      frame_idx := s.frame_idx + 1 } hcur rfl]
      simp only [DetState.mk.injEq, true_and]
      exact ⟨hcf.symm, by push_cast; ring, by push_cast; ring⟩

theorem detectStepT_quiet_active (T : Int) (s : DetState) (f : FrameFeatures)
    (c : CurrentSegment)
    (hm : is_mounted f.slot_classes = false)
    (hc : has_cooldown f.slot_classes = false)
    (hred : f.is_red_screen = false)
    (hcur : s.current_segment = some c)
    (ht : ¬ T ≤ s.no_cooldown_frames + 1) :
    detectStepT T s f =
      { s with cooldown_frames := 0,
               no_cooldown_frames := s.no_cooldown_frames + 1,
               frame_idx := s.frame_idx + 1 } := by
  simp [detectStepT, updateStreaks, closeCheckT, hm, hc, hcur, hred, ht]

theorem detectLoopT_quietRun_active (T : Int) (f : FrameFeatures)
    (c : CurrentSegment)
    (hm : is_mounted f.slot_classes = false)
    (hc : has_cooldown f.slot_classes = false)
    (hred : f.is_red_screen = false) :
    ∀ (k : Nat) (s : DetState), s.current_segment = some c →
      s.cooldown_frames = 0 → s.no_cooldown_frames + k < T →
      detectLoopT T s (List.replicate k f) =
        { s with no_cooldown_frames := s.no_cooldown_frames + k,
                 frame_idx := s.frame_idx + k } := by
  intro k
  induction k with
  | zero => intro s hcur hcf hrun; simp [detectLoopT]
  | succ k ih =>
      intro s hcur hcf hrun
      rw [List.replicate_succ]
      simp only [detectLoopT]
      rw [detectStepT_quiet_active T s f c hm hc hred hcur (by push_cast at hrun; omega)]
      have hrun' : s.no_cooldown_frames + 1 + (k : Int) < T := by
        push_cast at hrun; omega
      rw [ih { s with cooldown_frames := 0,
                      no_cooldown_frames := s.no_cooldown_frames + 1,
                      frame_idx := s.frame_idx + 1 } hcur rfl hrun']
      simp only [DetState.mk.injEq, true_and]
      exact ⟨hcf.symm, by push_cast; ring, by push_cast; ring⟩

/-! ## Lemmas: the scan-loop invariant

`DetInv` holds between frames. `MidInv` is its mid-frame weakening — it
holds after the streak update and is preserved by the end-condition
check; incrementing the frame index then restores `DetInv`. The ℚ
timeout test never needs to be decided: the invariant survives whichever
way it goes. -/

/-- The mid-frame weakening of `DetInv`: the frame index has not been
advanced yet, so the strict `< frame_idx` bounds are non-strict. -/
structure MidInv (s : DetState) : Prop where
  idx_nonneg : 0 ≤ s.frame_idx
  cf_nonneg : 0 ≤ s.cooldown_frames
  cf_le : s.cooldown_frames ≤ s.frame_idx + 1
  ncf_nonneg : 0 ≤ s.no_cooldown_frames
  cur_start_nonneg : ∀ c, s.current_segment = some c → 0 ≤ c.start_frame
  cur_start_le : ∀ c, s.current_segment = some c →
    c.start_frame + 2 ≤ s.frame_idx
  cur_ncf : ∀ c, s.current_segment = some c →
    c.start_frame + s.no_cooldown_frames ≤ s.frame_idx
  cur_after : ∀ c, s.current_segment = some c →
    ∀ p ∈ s.segments, p.start_frame < c.start_frame
  seg_bounds : ∀ p ∈ s.segments, 0 ≤ p.start_frame ∧
    p.start_frame ≤ p.end_frame ∧ p.end_frame ≤ s.frame_idx ∧
    p.start_frame + 2 ≤ s.frame_idx
  seg_sorted : s.segments.Pairwise (fun a b => a.start_frame < b.start_frame)

theorem MidInv.of_detInv {s : DetState} (h : DetInv s) : MidInv s where
  idx_nonneg := h.idx_nonneg
  cf_nonneg := h.cf_nonneg
  cf_le := by have := h.cf_le; omega
  ncf_nonneg := h.ncf_nonneg
  cur_start_nonneg := h.cur_start_nonneg
  cur_start_le := fun c hc => by have := h.cur_start_lt c hc; omega
  cur_ncf := fun c hc => by have := h.cur_ncf c hc; omega
  cur_after := h.cur_after
  seg_bounds := fun p hp => by have := h.seg_bounds p hp; omega
  seg_sorted := h.seg_sorted

theorem DetInv.of_midInv_bump {s : DetState} (h : MidInv s) :
    DetInv { s with frame_idx := s.frame_idx + 1 } where
  idx_nonneg := by have := h.idx_nonneg; show (0:Int) ≤ s.frame_idx + 1; omega
  cf_nonneg := h.cf_nonneg
  cf_le := by
    have := h.cf_le
    show s.cooldown_frames ≤ s.frame_idx + 1
    omega
  ncf_nonneg := h.ncf_nonneg
  cur_start_nonneg := h.cur_start_nonneg
  cur_start_lt := fun c hc => by
    have := h.cur_start_le c hc
    show c.start_frame + 2 < s.frame_idx + 1
    omega
  cur_ncf := fun c hc => by
    have := h.cur_ncf c hc
    show c.start_frame + s.no_cooldown_frames < s.frame_idx + 1
    omega
  cur_after := h.cur_after
  seg_bounds := fun p hp => by
    have := h.seg_bounds p hp
    refine ⟨this.1, this.2.1, ?_, ?_⟩
    · show p.end_frame < s.frame_idx + 1; omega
    · show p.start_frame + 2 < s.frame_idx + 1; omega
  seg_sorted := h.seg_sorted

theorem updateStreaks_mid {s : DetState} (f : FrameFeatures) (h : DetInv s) :
    MidInv (updateStreaks s f) := by
  unfold updateStreaks
  by_cases hc : has_cooldown f.slot_classes
  · simp only [hc, if_true]
    by_cases hopen : COOLDOWN_START_FRAMES ≤ s.cooldown_frames + 1 ∧
        s.current_segment = none
    · rw [if_pos hopen]
      have hidx2 : 2 ≤ s.frame_idx := by
        have h1 := h.cf_le
        have h2 := hopen.1
        rw [COOLDOWN_START_FRAMES] at h2
        omega
      have hmax : max 0 (s.frame_idx - COOLDOWN_START_FRAMES + 1) =
          s.frame_idx - 2 := by
        rw [COOLDOWN_START_FRAMES, max_eq_right] <;> omega
      refine {
        idx_nonneg := h.idx_nonneg
        cf_nonneg := ?_
        cf_le := ?_
        ncf_nonneg := le_refl 0
        cur_start_nonneg := ?_
        cur_start_le := ?_
        cur_ncf := ?_
        cur_after := ?_
        seg_bounds := fun p hp => by
          have := h.seg_bounds p hp
          show 0 ≤ p.start_frame ∧ p.start_frame ≤ p.end_frame ∧
            p.end_frame ≤ s.frame_idx ∧ p.start_frame + 2 ≤ s.frame_idx
          omega
        seg_sorted := h.seg_sorted }
      · have := h.cf_nonneg; show (0:Int) ≤ s.cooldown_frames + 1; omega
      · have := h.cf_le; show s.cooldown_frames + 1 ≤ s.frame_idx + 1; omega
      · intro c hcur
        rw [Option.some.injEq] at hcur
        rw [← hcur]
        show (0:Int) ≤ max 0 (s.frame_idx - COOLDOWN_START_FRAMES + 1)
        rw [hmax]; omega
      · intro c hcur
        rw [Option.some.injEq] at hcur
        rw [← hcur]
        show max 0 (s.frame_idx - COOLDOWN_START_FRAMES + 1) + 2 ≤ s.frame_idx
        rw [hmax]; omega
      · intro c hcur
        rw [Option.some.injEq] at hcur
        rw [← hcur]
        show max 0 (s.frame_idx - COOLDOWN_START_FRAMES + 1) + 0 ≤ s.frame_idx
        rw [hmax]; omega
      · intro c hcur p hp
        rw [Option.some.injEq] at hcur
        rw [← hcur]
        have := h.seg_bounds p hp
        show p.start_frame < max 0 (s.frame_idx - COOLDOWN_START_FRAMES + 1)
        rw [hmax]; omega
    · rw [if_neg hopen]
      refine {
        idx_nonneg := h.idx_nonneg
        cf_nonneg := ?_
        cf_le := ?_
        ncf_nonneg := le_refl 0
        cur_start_nonneg := fun c hcur => h.cur_start_nonneg c hcur
        cur_start_le := fun c hcur => by
          have := h.cur_start_lt c hcur
          show c.start_frame + 2 ≤ s.frame_idx
          omega
        cur_ncf := fun c hcur => by
          have := h.cur_start_lt c hcur
          show c.start_frame + 0 ≤ s.frame_idx
          omega
        cur_after := fun c hcur => h.cur_after c hcur
        seg_bounds := fun p hp => by
          have := h.seg_bounds p hp
          show 0 ≤ p.start_frame ∧ p.start_frame ≤ p.end_frame ∧
            p.end_frame ≤ s.frame_idx ∧ p.start_frame + 2 ≤ s.frame_idx
          omega
        seg_sorted := h.seg_sorted }
      · have := h.cf_nonneg; show (0:Int) ≤ s.cooldown_frames + 1; omega
      · have := h.cf_le; show s.cooldown_frames + 1 ≤ s.frame_idx + 1; omega
  · simp only [hc, Bool.false_eq_true, if_false]
    refine {
      idx_nonneg := h.idx_nonneg
      cf_nonneg := le_refl 0
      cf_le := by have := h.idx_nonneg; show (0:Int) ≤ s.frame_idx + 1; omega
      ncf_nonneg := ?_
      cur_start_nonneg := fun c hcur => h.cur_start_nonneg c hcur
      cur_start_le := fun c hcur => by
        have := h.cur_start_lt c hcur
        show c.start_frame + 2 ≤ s.frame_idx
        omega
      cur_ncf := fun c hcur => by
        have := h.cur_ncf c hcur
        show c.start_frame + (s.no_cooldown_frames + 1) ≤ s.frame_idx
        omega
      cur_after := fun c hcur => h.cur_after c hcur
      seg_bounds := fun p hp => by
        have := h.seg_bounds p hp
        show 0 ≤ p.start_frame ∧ p.start_frame ≤ p.end_frame ∧
          p.end_frame ≤ s.frame_idx ∧ p.start_frame + 2 ≤ s.frame_idx
        omega
      seg_sorted := h.seg_sorted }
    have := h.ncf_nonneg
    show (0:Int) ≤ s.no_cooldown_frames + 1
    omega

theorem MidInv.closeWith {s : DetState} (h : MidInv s) (c : CurrentSegment)
    (hcur : s.current_segment = some c) (e : Int) (d : Bool)
    (hse : c.start_frame ≤ e) (he : e ≤ s.frame_idx) :
    MidInv { s with
      segments := s.segments ++ [⟨c.start_frame, e, d⟩],
      current_segment := none, no_cooldown_frames := 0 } where
  idx_nonneg := h.idx_nonneg
  cf_nonneg := h.cf_nonneg
  cf_le := h.cf_le
  ncf_nonneg := le_refl 0
  cur_start_nonneg := fun c' hc' => by simp at hc'
  cur_start_le := fun c' hc' => by simp at hc'
  cur_ncf := fun c' hc' => by simp at hc'
  cur_after := fun c' hc' => by simp at hc'
  seg_bounds := by
    intro p hp
    rw [List.mem_append, List.mem_singleton] at hp
    rcases hp with hp | hp
    · exact h.seg_bounds p hp
    · rw [hp]
      have h0 := h.cur_start_nonneg c hcur
      have h2 := h.cur_start_le c hcur
      show 0 ≤ c.start_frame ∧ c.start_frame ≤ e ∧ e ≤ s.frame_idx ∧
        c.start_frame + 2 ≤ s.frame_idx
      exact ⟨h0, hse, he, by omega⟩
  seg_sorted := by
    show (s.segments ++ [(⟨c.start_frame, e, d⟩ : Segment)]).Pairwise _
    rw [List.pairwise_append]
    refine ⟨h.seg_sorted, by simp, ?_⟩
    intro a ha b hb
    rw [List.mem_singleton] at hb
    rw [hb]
    exact h.cur_after c hcur a ha

theorem closeCheck_mid (fps : ℚ) {s : DetState} (f : FrameFeatures)
    (h : MidInv s) : MidInv (closeCheck fps s f) := by
  unfold closeCheck
  split
  · exact h
  next c heq =>
    split
    · refine h.closeWith c heq _ _ ?_ ?_
      · have := h.cur_ncf c heq; omega
      · have := h.ncf_nonneg; omega
    · split
      · exact h.closeWith c heq s.frame_idx true
          (by have := h.cur_start_le c heq; omega) (le_refl _)
      · exact h

theorem detectStep_inv (fps : ℚ) {s : DetState} (f : FrameFeatures)
    (h : DetInv s) : DetInv (detectStep fps s f) := by
  unfold detectStep
  by_cases hm : is_mounted f.slot_classes
  · simp only [hm, if_true]
    exact DetInv.of_midInv_bump (MidInv.of_detInv h)
  · simp only [hm, Bool.false_eq_true, if_false]
    exact DetInv.of_midInv_bump (closeCheck_mid fps f (updateStreaks_mid f h))

theorem detectLoop_inv (fps : ℚ) {s : DetState} (fs : List FrameFeatures)
    (h : DetInv s) : DetInv (detectLoop fps s fs) := by
  induction fs generalizing s with
  | nil => exact h
  | cons f fs ih => exact ih (detectStep_inv fps f h)

theorem initState_inv : DetInv initState where
  idx_nonneg := le_refl 0
  cf_nonneg := le_refl 0
  cf_le := le_refl 0
  ncf_nonneg := le_refl 0
  cur_start_nonneg := fun c hc => by simp [initState] at hc
  cur_start_lt := fun c hc => by simp [initState] at hc
  cur_ncf := fun c hc => by simp [initState] at hc
  cur_after := fun c hc => by simp [initState] at hc
  seg_bounds := fun p hp => by simp [initState] at hp
  seg_sorted := by simp [initState]

/-! ## Lemmas: the frame index counts every frame, mounted or not -/

theorem updateStreaks_frame_idx (s : DetState) (f : FrameFeatures) :
    (updateStreaks s f).frame_idx = s.frame_idx := by
  unfold updateStreaks
  split <;> rfl

theorem closeCheck_frame_idx (fps : ℚ) (s : DetState) (f : FrameFeatures) :
    (closeCheck fps s f).frame_idx = s.frame_idx := by
  unfold closeCheck
  split
  · rfl
  · split
    · rfl
    · split <;> rfl

theorem detectStep_frame_idx (fps : ℚ) (s : DetState) (f : FrameFeatures) :
    (detectStep fps s f).frame_idx = s.frame_idx + 1 := by
  unfold detectStep
  split
  · rfl
  · show (closeCheck fps (updateStreaks s f) f).frame_idx + 1 = s.frame_idx + 1
    rw [closeCheck_frame_idx, updateStreaks_frame_idx]

theorem detectLoop_frame_idx (fps : ℚ) (fs : List FrameFeatures) :
    ∀ s : DetState,
      (detectLoop fps s fs).frame_idx = s.frame_idx + fs.length := by
  induction fs with
  | nil => intro s; simp [detectLoop]
  | cons f fs ih =>
      intro s
      rw [detectLoop, ih, detectStep_frame_idx]
      simp
      omega

/-! ## Lemmas: bounds and ordering of the raw windows -/

theorem rawSegments_bounds (fps : ℚ) (frames : List FrameFeatures) :
    ∀ p ∈ rawSegments fps frames, 0 ≤ p.start_frame ∧
      p.start_frame ≤ p.end_frame ∧
      p.end_frame ≤ (frames.length : Int) - 1 := by
  intro p hp
  have hinv := detectLoop_inv fps frames initState_inv
  have hidx : (detectLoop fps initState frames).frame_idx =
      (frames.length : Int) := by
    rw [detectLoop_frame_idx]
    simp [initState]
  simp only [rawSegments] at hp
  split at hp
  · have := hinv.seg_bounds p hp
    omega
  next c heq =>
    rw [List.mem_append, List.mem_singleton] at hp
    rcases hp with hp | hp
    · have := hinv.seg_bounds p hp
      omega
    · rw [hp]
      have h0 := hinv.cur_start_nonneg c heq
      have hn := hinv.cur_ncf c heq
      have hnn := hinv.ncf_nonneg
      show 0 ≤ c.start_frame ∧
        c.start_frame ≤ (detectLoop fps initState frames).frame_idx - 1 ∧
        (detectLoop fps initState frames).frame_idx - 1 ≤
          (frames.length : Int) - 1
      omega

theorem rawSegments_sorted (fps : ℚ) (frames : List FrameFeatures) :
    (rawSegments fps frames).Pairwise
      (fun a b => a.start_frame < b.start_frame) := by
  have hinv := detectLoop_inv fps frames initState_inv
  simp only [rawSegments]
  split
  · exact hinv.seg_sorted
  next c heq =>
    rw [List.pairwise_append]
    refine ⟨hinv.seg_sorted, by simp, ?_⟩
    intro a ha b hb
    rw [List.mem_singleton] at hb
    rw [hb]
    exact hinv.cur_after c heq a ha

/-! ## Lemmas: the two concrete frame rates used by the scenarios -/

theorem bridge60 (s : DetState) (fs : List FrameFeatures) :
    detectLoop 60 s fs = detectLoopT 3600 s fs := by
  refine detectLoopT_eq 60 3600 (by norm_num) ?_ s fs
  rw [NO_COOLDOWN_END_SECONDS]
  norm_num

theorem bridge1 (s : DetState) (fs : List FrameFeatures) :
    detectLoop 1 s fs = detectLoopT 60 s fs := by
  refine detectLoopT_eq 1 60 (by norm_num) ?_ s fs
  rw [NO_COOLDOWN_END_SECONDS]
  norm_num

theorem pyTruncInt_nonneg (q : ℚ) (h : 0 ≤ q) : 0 ≤ pyTruncInt q := by
  rw [pyTruncInt, if_pos h]
  exact Int.floor_nonneg.mpr h

/-! ## Lemmas: pointwise computation of the end-condition check -/

theorem closeCheck_none (fps : ℚ) (u : DetState) (f : FrameFeatures)
    (hcur : u.current_segment = none) : closeCheck fps u f = u := by
  unfold closeCheck
  rw [hcur]

theorem closeCheck_some (fps : ℚ) (u : DetState) (f : FrameFeatures)
    (c : CurrentSegment) (hcur : u.current_segment = some c) :
    closeCheck fps u f =
      if NO_COOLDOWN_END_SECONDS ≤ (u.no_cooldown_frames : ℚ) / fps then
        { u with
            segments := u.segments ++
              [{ start_frame := c.start_frame,
                 end_frame := u.frame_idx - u.no_cooldown_frames,
                 death := c.death }],
            current_segment := none, no_cooldown_frames := 0 }
      else if f.is_red_screen then
        { u with
            segments := u.segments ++
              [{ start_frame := c.start_frame, end_frame := u.frame_idx,
                 death := true }],
            current_segment := none, no_cooldown_frames := 0 }
      else u := by
  unfold closeCheck
  rw [hcur]

theorem updateStreaks_quiet (s : DetState) (f : FrameFeatures)
    (hc : has_cooldown f.slot_classes = false) :
    updateStreaks s f =
      { s with no_cooldown_frames := s.no_cooldown_frames + 1,
               cooldown_frames := 0 } := by
  unfold updateStreaks
  rw [if_neg (by simp [hc])]

theorem updateStreaks_cd_open (s : DetState) (f : FrameFeatures)
    (hc : has_cooldown f.slot_classes = true)
    (hcur : s.current_segment = none)
    (hge : COOLDOWN_START_FRAMES ≤ s.cooldown_frames + 1) :
    updateStreaks s f =
      { s with cooldown_frames := s.cooldown_frames + 1,
               no_cooldown_frames := 0,
               current_segment :=
                 some { start_frame :=
                          max 0 (s.frame_idx - COOLDOWN_START_FRAMES + 1),
                        death := false } } := by
  unfold updateStreaks
  rw [if_pos (by exact hc)]
  dsimp only
  rw [if_pos ⟨hge, hcur⟩]

theorem updateStreaks_cd_noopen (s : DetState) (f : FrameFeatures)
    (hc : has_cooldown f.slot_classes = true)
    (hno : ¬ (COOLDOWN_START_FRAMES ≤ s.cooldown_frames + 1 ∧
      s.current_segment = none)) :
    updateStreaks s f =
      { s with cooldown_frames := s.cooldown_frames + 1,
               no_cooldown_frames := 0,
               current_segment := s.current_segment } := by
  unfold updateStreaks
  rw [if_pos (by exact hc)]
  dsimp only
  rw [if_neg hno]

theorem timeout_zero_not (fps : ℚ) :
    ¬ NO_COOLDOWN_END_SECONDS ≤ ((0 : Int) : ℚ) / fps := by
  rw [NO_COOLDOWN_END_SECONDS, Int.cast_zero, zero_div]
  norm_num

/-! ## Claim theorems -/

/-- C10: `extract_clip` returns `True` for every input — including when
the source video cannot be opened (`read` never succeeds) or no frame in
`[start_frame, end_frame]` is readable — so a per-window extraction
failure is never reported to the caller through its boolean result. -/
theorem c10_extract_clip_always_true {α : Type} (read : Int → Option α)
    (start_frame end_frame : Int) :
    (extract_clip read start_frame end_frame).2 = true := rfl

/-- C9: if the window list passed to the extraction/merge engine is
empty, the engine returns failure, performs no extraction, and creates no
output files (no merged video, no JSON sidecar); `merge_clips` likewise
fails on an empty clip list. -/
theorem c9_empty_window_list {α β : Type} (read : Int → Option α) :
    extract_and_merge_segments read [] =
      { success := false, clips_extracted := 0, merged_written := false,
        sidecar := none } ∧
    merge_clips ([] : List β) = false :=
  ⟨rfl, rfl⟩

/-- C5 counterexample: inserting a mounted frame in front of a
combat-triggering stream shifts the start/end frame numbers of the
resulting window, so the window set is not unchanged. -/
theorem c5_insertion_counterexample :
    is_mounted mntF.slot_classes = true ∧
    rawSegments 60 [cdF, cdF, cdF] =
      [{ start_frame := 0, end_frame := 2, death := false }] ∧
    rawSegments 60 [mntF, cdF, cdF, cdF] =
      [{ start_frame := 1, end_frame := 3, death := false }] := by
  refine ⟨by decide, ?_, ?_⟩ <;>
    · simp only [rawSegments, bridge60]
      decide

/-- C5 (amended): a frame with `is_mounted = true` never starts, extends,
or ends a window and updates no counters — the detector state is
unchanged except that the frame index advances; because the index still
advances, inserting mounted frames shifts the frame numbers of later
windows, so only this per-frame skip property holds, not invariance of
the window set under insertion. -/
theorem c5_mounted_frame_only_advances_index (fps : ℚ) (s : DetState)
    (f : FrameFeatures) (hm : is_mounted f.slot_classes = true) :
    detectStep fps s f = { s with frame_idx := s.frame_idx + 1 } := by
  unfold detectStep
  rw [if_pos (by exact hm)]

/-- Witness for C5 (amended) at a concrete mounted frame and state. -/
theorem c5_mounted_frame_only_advances_index_witness :
    is_mounted mntF.slot_classes = true ∧
    detectStep 60 ⟨[], some ⟨7, false⟩, 1, 2, 9⟩ mntF =
      (⟨[], some ⟨7, false⟩, 1, 2, 10⟩ : DetState) :=
  ⟨by decide, by
    rw [c5_mounted_frame_only_advances_index 60 _ mntF (by decide)]
    decide⟩

set_option maxRecDepth 8000 in
/-- C1 counterexample: at fps = 1, after three cooldown frames (window
open, start 0) and 59 quiet frames, the 63rd frame is both the 60th
consecutive quiet frame (idle timeout fires) and a red-screen frame —
both end conditions hold on the same frame index while the window is
open — yet the closed window has `death = false`, not `death = true`. -/
theorem c1_death_precedence_counterexample :
    (detectLoop 1 initState ([cdF, cdF, cdF] ++ List.replicate 59 ncdF)
      ).current_segment = some ⟨0, false⟩ ∧
    NO_COOLDOWN_END_SECONDS ≤
      (((detectLoop 1 initState ([cdF, cdF, cdF] ++ List.replicate 59 ncdF)
        ).no_cooldown_frames + 1 : Int) : ℚ) / 1 ∧
    redNcdF.is_red_screen = true ∧
    is_mounted redNcdF.slot_classes = false ∧
    rawSegments 1 c1stream =
      [{ start_frame := 0, end_frame := 2, death := false }] := by
  have hpre : detectLoop 1 initState ([cdF, cdF, cdF] ++ List.replicate 59 ncdF) =
      (⟨[], some ⟨0, false⟩, 0, 59, 62⟩ : DetState) := by
    rw [bridge1]
    decide
  refine ⟨by rw [hpre], ?_, by decide, by decide, ?_⟩
  · rw [hpre, NO_COOLDOWN_END_SECONDS]
    norm_num
  · simp only [rawSegments, bridge1]
    decide

/-- C1 (amended): when the idle-timeout condition holds on a non-mounted,
non-cooldown frame while a window is open, the window is closed exactly
once with `death = false` and `end_frame = frame_idx − noCooldownStreak`,
whatever the frame's red-screen flag is: the idle timeout is evaluated
first and takes precedence over the death interrupt on the same frame
(the `elif` still prevents a double close). -/
theorem c1_timeout_wins_same_frame (fps : ℚ) (s : DetState)
    (f : FrameFeatures) (c : CurrentSegment)
    (hm : is_mounted f.slot_classes = false)
    (hc : has_cooldown f.slot_classes = false)
    (hcur : s.current_segment = some c)
    (hd : c.death = false)
    (ht : NO_COOLDOWN_END_SECONDS ≤
      ((s.no_cooldown_frames + 1 : Int) : ℚ) / fps) :
    (detectStep fps s f).segments = s.segments ++
      [{ start_frame := c.start_frame,
         end_frame := s.frame_idx - (s.no_cooldown_frames + 1),
         death := false }] ∧
    (detectStep fps s f).current_segment = none := by
  unfold detectStep
  rw [if_neg (by simp [hm])]
  dsimp only
  rw [updateStreaks_quiet s f hc]
  rw [closeCheck_some fps
        { s with no_cooldown_frames := s.no_cooldown_frames + 1,
                 cooldown_frames := 0 } f c hcur]
  rw [if_pos (by exact ht)]
  exact ⟨by rw [hd], rfl⟩

/-- Witness for C1 (amended): a concrete open-window state whose next
frame satisfies the timeout condition and is red-screen. -/
theorem c1_timeout_wins_same_frame_witness :
    (detectStep 1 ⟨[], some ⟨0, false⟩, 0, 59, 62⟩ redNcdF).segments =
      [] ++ [{ start_frame := 0, end_frame := 62 - (59 + 1),
               death := false }] ∧
    (detectStep 1 ⟨[], some ⟨0, false⟩, 0, 59, 62⟩ redNcdF
      ).current_segment = none :=
  c1_timeout_wins_same_frame 1 ⟨[], some ⟨0, false⟩, 0, 59, 62⟩ redNcdF
    ⟨0, false⟩ (by decide) (by decide) rfl rfl
    (by rw [NO_COOLDOWN_END_SECONDS]; norm_num)

/-- C2 counterexample: a death interrupt on a cooldown frame does not
reset `cooldown_frames` — after the close it is 3, not 0, and a single
further cooldown frame immediately opens the next window, instead of
requiring a fresh run of 3 qualifying frames. -/
theorem c2_reset_counterexample :
    (detectLoop 60 initState [cdF, cdF, redCdF]).segments =
      [{ start_frame := 0, end_frame := 2, death := true }] ∧
    (detectLoop 60 initState [cdF, cdF, redCdF]).current_segment = none ∧
    (detectLoop 60 initState [cdF, cdF, redCdF]).cooldown_frames = 3 ∧
    (detectLoop 60 initState [cdF, cdF, redCdF, cdF]).current_segment =
      some ⟨1, false⟩ := by
  rw [bridge60, bridge60]
  refine ⟨by decide, by decide, by decide, by decide⟩

/-- C2 (amended): whenever the detector closes a window on a frame —
idle timeout or death interrupt — `noCooldownStreak` is 0 immediately
after; `cooldownStreak` is also 0 when the closing frame had no cooldown
(so after every idle-timeout close), but on a cooldown closing frame
(death interrupt) `cooldownStreak` is incremented, not reset, so the next
window does not necessarily need a fresh run of 3 qualifying frames. -/
theorem c2_counters_after_close (fps : ℚ) (s : DetState)
    (f : FrameFeatures) (c : CurrentSegment)
    (hm : is_mounted f.slot_classes = false)
    (hcur : s.current_segment = some c)
    (hclosed : (detectStep fps s f).current_segment = none) :
    (detectStep fps s f).no_cooldown_frames = 0 ∧
    (has_cooldown f.slot_classes = false →
      (detectStep fps s f).cooldown_frames = 0) ∧
    (has_cooldown f.slot_classes = true →
      (detectStep fps s f).cooldown_frames = s.cooldown_frames + 1) := by
  unfold detectStep at hclosed ⊢
  rw [if_neg (by simp [hm])] at hclosed ⊢
  dsimp only at hclosed ⊢
  by_cases hc : has_cooldown f.slot_classes
  · rw [updateStreaks_cd_noopen s f hc (by simp [hcur])] at hclosed ⊢
    rw [closeCheck_some fps
          { s with cooldown_frames := s.cooldown_frames + 1,
                   no_cooldown_frames := 0,
                   current_segment := s.current_segment } f c hcur]
        at hclosed ⊢
    rw [if_neg (timeout_zero_not fps)] at hclosed ⊢
    by_cases hred : f.is_red_screen
    · rw [if_pos (by exact hred)]
      exact ⟨rfl, fun h => absurd hc (by simp [h]), fun _ => rfl⟩
    · rw [if_neg (by simp [hred])] at hclosed
      exact absurd hclosed (by simp [hcur])
  · rw [updateStreaks_quiet s f (by simp at hc; exact hc)] at hclosed ⊢
    rw [closeCheck_some fps
          { s with no_cooldown_frames := s.no_cooldown_frames + 1,
                   cooldown_frames := 0 } f c hcur] at hclosed ⊢
    by_cases ht : NO_COOLDOWN_END_SECONDS ≤
        ((s.no_cooldown_frames + 1 : Int) : ℚ) / fps
    · rw [if_pos (by exact ht)]
      exact ⟨rfl, fun _ => rfl, fun h => absurd h hc⟩
    · rw [if_neg (by exact ht)] at hclosed ⊢
      by_cases hred : f.is_red_screen
      · rw [if_pos (by exact hred)]
        exact ⟨rfl, fun _ => rfl, fun h => absurd h hc⟩
      · rw [if_neg (by simp [hred])] at hclosed
        exact absurd hclosed (by simp [hcur])

/-- Witness for C2 (amended): a death close on a cooldown frame; the
counters after the close are 0 (quiet streak) and 2 + 1 (cooldown
streak, incremented rather than reset). -/
theorem c2_counters_after_close_witness :
    (detectStep 60 ⟨[], some ⟨0, false⟩, 2, 0, 3⟩ redCdF
      ).no_cooldown_frames = 0 ∧
    (has_cooldown redCdF.slot_classes = false →
      (detectStep 60 ⟨[], some ⟨0, false⟩, 2, 0, 3⟩ redCdF
        ).cooldown_frames = 0) ∧
    (has_cooldown redCdF.slot_classes = true →
      (detectStep 60 ⟨[], some ⟨0, false⟩, 2, 0, 3⟩ redCdF
        ).cooldown_frames = 2 + 1) :=
  c2_counters_after_close 60 ⟨[], some ⟨0, false⟩, 2, 0, 3⟩ redCdF
    ⟨0, false⟩ (by decide) rfl
    (by rw [detectStepT_eq 60 3600 (by norm_num)
          (by rw [NO_COOLDOWN_END_SECONDS]; norm_num)]
        decide)


/-! ## Lemmas: the full run of the 36000-frame concrete scenario -/

theorem c3_loop_state :
    detectLoopT 3600 initState c3stream =
      (⟨[⟨100, 102, false⟩], none, 0, 32297, 36000⟩ : DetState) := by
  have hsplit : c3stream =
      List.replicate 100 ncdF ++ (List.replicate 3 cdF ++ ([ncdF] ++
        (List.replicate 3598 ncdF ++ ([ncdF] ++ List.replicate 32297 ncdF)))) := by
    rw [c3stream]
    rw [show (35897 : Nat) = 1 + (3598 + (1 + 32297)) from rfl]
    rw [List.replicate_add, List.replicate_add, List.replicate_add,
        List.replicate_one, List.append_assoc]
  have e1 : detectLoopT 3600 initState (List.replicate 100 ncdF) =
      (⟨[], none, 0, 100, 100⟩ : DetState) := by
    rw [detectLoopT_quietRun_idle 3600 ncdF (by decide) (by decide) 100
          initState rfl rfl]
    decide
  have e2 : detectLoopT 3600 (⟨[], none, 0, 100, 100⟩ : DetState)
      (List.replicate 3 cdF) =
      (⟨[], some ⟨100, false⟩, 3, 0, 103⟩ : DetState) := by decide
  have e3 : detectLoopT 3600 (⟨[], some ⟨100, false⟩, 3, 0, 103⟩ : DetState)
      [ncdF] = (⟨[], some ⟨100, false⟩, 0, 1, 104⟩ : DetState) := by decide
  have e4 : detectLoopT 3600 (⟨[], some ⟨100, false⟩, 0, 1, 104⟩ : DetState)
      (List.replicate 3598 ncdF) =
      (⟨[], some ⟨100, false⟩, 0, 3599, 3702⟩ : DetState) := by
    rw [detectLoopT_quietRun_active 3600 ncdF ⟨100, false⟩ (by decide)
          (by decide) (by decide) 3598 _ rfl rfl (by decide)]
    decide
  have e5 : detectLoopT 3600
      (⟨[], some ⟨100, false⟩, 0, 3599, 3702⟩ : DetState) [ncdF] =
      (⟨[⟨100, 102, false⟩], none, 0, 0, 3703⟩ : DetState) := by decide
  have e6 : detectLoopT 3600
      (⟨[⟨100, 102, false⟩], none, 0, 0, 3703⟩ : DetState)
      (List.replicate 32297 ncdF) =
      (⟨[⟨100, 102, false⟩], none, 0, 32297, 36000⟩ : DetState) := by
    rw [detectLoopT_quietRun_idle 3600 ncdF (by decide) (by decide) 32297 _
          rfl rfl]
    decide
  rw [hsplit, detectLoopT_append, detectLoopT_append, detectLoopT_append,
      detectLoopT_append, detectLoopT_append, e1, e2, e3, e4, e5, e6]

theorem rawSegments_of_none (fps : ℚ) (frames : List FrameFeatures)
    (h : (detectLoop fps initState frames).current_segment = none) :
    rawSegments fps frames = (detectLoop fps initState frames).segments := by
  unfold rawSegments
  dsimp only
  rw [h]

theorem c3_final_state : detectLoop 60 initState c3stream =
    (⟨[⟨100, 102, false⟩], none, 0, 32297, 36000⟩ : DetState) := by
  rw [bridge60]
  exact c3_loop_state

theorem c3_raw : rawSegments 60 c3stream =
    [{ start_frame := 100, end_frame := 102, death := false }] := by
  rw [rawSegments_of_none 60 c3stream (by rw [c3_final_state]),
      c3_final_state]

theorem c3_result : detect_combat_segments 60 36000 c3stream =
    [{ start_frame := 100, end_frame := 102, death := false,
       clip_start_frame := 0, clip_end_frame := 7302,
       start_time := 5/3, end_time := 17/10,
       clip_start_time := 0, clip_end_time := 1217/10 }] := by
  unfold detect_combat_segments
  rw [c3_raw, List.map_cons, List.map_nil]
  simp only [expandSegment, pyTruncInt, CLIP_BEFORE_SECONDS,
    CLIP_AFTER_SECONDS]
  norm_num [ClipSegment.mk.injEq, Segment.mk.injEq]


/-- C3 counterexample: on the concrete fps=60, 36000-frame scenario with
cooldown exactly on frames 100–102, the detector does open at 100 but
closes with `end_frame = 102` and `clip_end_frame = 7302`; no window has
the claimed `end_frame = 103` / `clip_end_frame = 7303`. -/
theorem c3_scenario_counterexample :
    (detect_combat_segments 60 36000 c3stream).map
      (fun w => (w.start_frame, w.end_frame, w.death,
        w.clip_start_frame, w.clip_end_frame)) =
      [(100, 102, false, 0, 7302)] ∧
    ¬ ∃ w ∈ detect_combat_segments 60 36000 c3stream,
        w.end_frame = 103 ∧ w.clip_end_frame = 7303 := by
  rw [c3_result]
  refine ⟨rfl, ?_⟩
  rintro ⟨w, hw, h103, -⟩
  rw [List.mem_singleton] at hw
  rw [hw] at h103
  exact absurd h103 (by decide)

/-- C3 (amended): with fps=60, frame_count=36000, no mounted frames and
`has_cooldown` true exactly on frames 100–102, the detector opens a
window with `start_frame = 100` and closes it by idle timeout at frame
3702 with `end_frame = 3702 − 3600 = 102` (the last cooldown frame) and
`death = false`; expansion with 120-second buffers yields
`clip_start_frame = 0` (100 − 7200 clamped) and
`clip_end_frame = 102 + 7200 = 7302`. -/
theorem c3_scenario :
    rawSegments 60 c3stream =
      [{ start_frame := 100, end_frame := 102, death := false }] ∧
    detect_combat_segments 60 36000 c3stream =
      [{ start_frame := 100, end_frame := 102, death := false,
         clip_start_frame := 0, clip_end_frame := 7302,
         start_time := 5/3, end_time := 17/10,
         clip_start_time := 0, clip_end_time := 1217/10 }] :=
  ⟨c3_raw, c3_result⟩

/-- C4 counterexample: with two detected windows of which only the first
extracts successfully, the sidecar still lists both windows and
`total_segments = 2`, while the successfully extracted clips number 1 —
the failed window is not excluded from the sidecar. -/
theorem c4_sidecar_counterexample :
    ([c4seg0, c4seg1].filter c4oracle).length = 1 ∧
    (extract_and_merge_core c4oracle [c4seg0, c4seg1]).sidecar =
      some ([c4seg0, c4seg1], 2) ∧
    [c4seg0, c4seg1].filter c4oracle ≠ [c4seg0, c4seg1] := by
  refine ⟨rfl, rfl, fun h => ?_⟩
  rw [show [c4seg0, c4seg1].filter c4oracle = [c4seg0] from rfl] at h
  exact absurd (congrArg List.length h) (by simp)

/-- C4 (amended): whenever at least one window's extraction reports
success, the engine succeeds, merges exactly the successfully extracted
clips — but the sidecar JSON always records the **full** detected window
list with `total_segments` equal to the number of detected windows,
regardless of per-window extraction failures (and `extract_clip` never
reports failure anyway, see C10). -/
theorem c4_sidecar_keeps_all_windows (extractOk : ClipSegment → Bool)
    (segs : List ClipSegment) (h1 : segs ≠ [])
    (h2 : segs.filter extractOk ≠ []) :
    (extract_and_merge_core extractOk segs).success = true ∧
    (extract_and_merge_core extractOk segs).clips_extracted =
      (segs.filter extractOk).length ∧
    (extract_and_merge_core extractOk segs).sidecar =
      some (segs, segs.length) := by
  unfold extract_and_merge_core
  rw [if_neg h1]
  dsimp only
  rw [if_neg (by simp [List.isEmpty_iff, h2])]
  exact ⟨rfl, rfl, rfl⟩

/-- Witness for C4 (amended) on the two concrete windows, the second of
which fails extraction. -/
theorem c4_sidecar_keeps_all_windows_witness :
    (extract_and_merge_core c4oracle [c4seg0, c4seg1]).success = true ∧
    (extract_and_merge_core c4oracle [c4seg0, c4seg1]).clips_extracted =
      ([c4seg0, c4seg1].filter c4oracle).length ∧
    (extract_and_merge_core c4oracle [c4seg0, c4seg1]).sidecar =
      some ([c4seg0, c4seg1], [c4seg0, c4seg1].length) :=
  c4_sidecar_keeps_all_windows c4oracle [c4seg0, c4seg1]
    (fun h => absurd (congrArg List.length h) (by simp))
    (fun h => absurd (congrArg List.length
      ((show [c4seg0, c4seg1].filter c4oracle = [c4seg0] from rfl) ▸ h))
      (by simp))

/-- C7: for every window produced by the detector on a stream whose
length matches the container frame count, with any positive fps, the
expander computes `clip_start_frame = max(0, start_frame − pre)` and
`clip_end_frame = min(frame_count−1, end_frame + post)`, so
`clip_start_frame ≤ start_frame ≤ end_frame ≤ clip_end_frame` and both
clip bounds lie in `[0, frame_count − 1]`. -/
theorem c7_clip_window_invariant (fps : ℚ) (hfps : 0 < fps)
    (frames : List FrameFeatures) (frame_count : Int)
    (hfc : frame_count = (frames.length : Int))
    (w : ClipSegment)
    (hw : w ∈ detect_combat_segments fps frame_count frames) :
    w.clip_start_frame ≤ w.start_frame ∧ w.start_frame ≤ w.end_frame ∧
    w.end_frame ≤ w.clip_end_frame ∧
    0 ≤ w.clip_start_frame ∧ w.clip_start_frame ≤ frame_count - 1 ∧
    0 ≤ w.clip_end_frame ∧ w.clip_end_frame ≤ frame_count - 1 := by
  subst hfc
  unfold detect_combat_segments at hw
  rw [List.mem_map] at hw
  obtain ⟨p, hp, rfl⟩ := hw
  obtain ⟨h0, hse, hend⟩ := rawSegments_bounds fps frames p hp
  have ht1 : 0 ≤ pyTruncInt (CLIP_BEFORE_SECONDS * fps) :=
    pyTruncInt_nonneg _ (by rw [CLIP_BEFORE_SECONDS]; positivity)
  have ht2 : 0 ≤ pyTruncInt (CLIP_AFTER_SECONDS * fps) :=
    pyTruncInt_nonneg _ (by rw [CLIP_AFTER_SECONDS]; positivity)
  unfold expandSegment
  dsimp only
  refine ⟨max_le (by omega) (by omega), hse,
    le_min (by omega) (by omega),
    le_max_left 0 _,
    max_le (by omega) (by omega),
    le_min (by omega) (by omega),
    min_le_left _ _⟩

/-- C8: the windows returned by the detector come in strictly increasing
`start_frame` order, and at most one window is open at any point of the
scan (the open-window slot is a single optional value). -/
theorem c8_windows_sorted_one_open (fps : ℚ) (frame_count : Int)
    (frames : List FrameFeatures) :
    (detect_combat_segments fps frame_count frames).Pairwise
      (fun a b => a.start_frame < b.start_frame) ∧
    ∀ l1 l2 : List FrameFeatures, frames = l1 ++ l2 →
      openWindowCount (detectLoop fps initState l1) ≤ 1 := by
  constructor
  · unfold detect_combat_segments
    rw [List.pairwise_map]
    exact (rawSegments_sorted fps frames).imp (fun h => h)
  · intro l1 l2 _
    unfold openWindowCount
    cases (detectLoop fps initState l1).current_segment <;> simp

/-- Witness for C8 on a concrete three-frame stream. -/
theorem c8_windows_sorted_one_open_witness :
    (detect_combat_segments 60 3 [cdF, cdF, cdF]).Pairwise
      (fun a b => a.start_frame < b.start_frame) ∧
    ∀ l1 l2 : List FrameFeatures, [cdF, cdF, cdF] = l1 ++ l2 →
      openWindowCount (detectLoop 60 initState l1) ≤ 1 :=
  c8_windows_sorted_one_open 60 3 [cdF, cdF, cdF]


/-- C6: debounce correctness — from an `IDLE` state with
`cooldownStreak = 0`, two consecutive non-mounted cooldown frames
followed by a non-cooldown frame never open a window (threshold − 1 is
not enough), while three consecutive non-mounted cooldown frames always
open exactly one window whose `start_frame` is the index of the first
frame of the run, i.e. `currentIndex − threshold + 1` (the clamp to 0
never binds since the fire index is ≥ 2). -/
theorem c6_debounce (fps : ℚ) (s : DetState) (f1 f2 f3 g : FrameFeatures)
    (hidle : s.current_segment = none) (hcf : s.cooldown_frames = 0)
    (hidx : 0 ≤ s.frame_idx)
    (hm1 : is_mounted f1.slot_classes = false)
    (hm2 : is_mounted f2.slot_classes = false)
    (hm3 : is_mounted f3.slot_classes = false)
    (hmg : is_mounted g.slot_classes = false)
    (hc1 : has_cooldown f1.slot_classes = true)
    (hc2 : has_cooldown f2.slot_classes = true)
    (hc3 : has_cooldown f3.slot_classes = true)
    (hcg : has_cooldown g.slot_classes = false) :
    ((detectLoop fps s [f1, f2, g]).segments = s.segments ∧
     (detectLoop fps s [f1, f2, g]).current_segment = none) ∧
    windowStarts (detectLoop fps s [f1, f2, f3]) =
      windowStarts s ++ [s.frame_idx] := by
  have st1 : detectStep fps s f1 =
      { s with cooldown_frames := s.cooldown_frames + 1,
               no_cooldown_frames := 0,
               current_segment := s.current_segment,
               frame_idx := s.frame_idx + 1 } := by
    unfold detectStep
    rw [if_neg (by simp [hm1])]
    dsimp only
    rw [updateStreaks_cd_noopen s f1 hc1
          (by rw [hcf, COOLDOWN_START_FRAMES]; norm_num)]
    rw [closeCheck_none fps
          { s with cooldown_frames := s.cooldown_frames + 1,
                   no_cooldown_frames := 0,
                   current_segment := s.current_segment } f1 hidle]
  set u1 : DetState :=
      { s with cooldown_frames := s.cooldown_frames + 1,
               no_cooldown_frames := 0,
               current_segment := s.current_segment,
               frame_idx := s.frame_idx + 1 } with hu1
  have st2 : detectStep fps u1 f2 =
      { s with cooldown_frames := s.cooldown_frames + 1 + 1,
               no_cooldown_frames := 0,
               current_segment := s.current_segment,
               frame_idx := s.frame_idx + 1 + 1 } := by
    unfold detectStep
    rw [if_neg (by simp [hm2])]
    dsimp only
    rw [updateStreaks_cd_noopen u1 f2 hc2
          (by rw [hu1]; show ¬(COOLDOWN_START_FRAMES ≤ s.cooldown_frames + 1 + 1 ∧ _); rw [hcf, COOLDOWN_START_FRAMES]; norm_num)]
    rw [closeCheck_none fps
          { u1 with cooldown_frames := u1.cooldown_frames + 1,
                    no_cooldown_frames := 0,
                    current_segment := u1.current_segment } f2 hidle]
  set u2 : DetState :=
      { s with cooldown_frames := s.cooldown_frames + 1 + 1,
               no_cooldown_frames := 0,
               current_segment := s.current_segment,
               frame_idx := s.frame_idx + 1 + 1 } with hu2
  have stg : detectStep fps u2 g =
      { s with cooldown_frames := 0,
               no_cooldown_frames := 0 + 1,
               current_segment := s.current_segment,
               frame_idx := s.frame_idx + 1 + 1 + 1 } := by
    unfold detectStep
    rw [if_neg (by simp [hmg])]
    dsimp only
    rw [updateStreaks_quiet u2 g hcg]
    rw [closeCheck_none fps
          { u2 with no_cooldown_frames := u2.no_cooldown_frames + 1,
                    cooldown_frames := 0 } g hidle]
  have hmax : max 0 (u2.frame_idx - COOLDOWN_START_FRAMES + 1) =
      s.frame_idx := by
    show max 0 (s.frame_idx + 1 + 1 - COOLDOWN_START_FRAMES + 1) = s.frame_idx
    rw [COOLDOWN_START_FRAMES, max_eq_right (by omega)]
    omega
  have hA : detectLoop fps s [f1, f2, g] =
      { s with cooldown_frames := 0,
               no_cooldown_frames := 0 + 1,
               current_segment := s.current_segment,
               frame_idx := s.frame_idx + 1 + 1 + 1 } := by
    simp only [detectLoop]
    rw [st1, st2, stg]
  have hopen : updateStreaks u2 f3 =
      { u2 with cooldown_frames := u2.cooldown_frames + 1,
                no_cooldown_frames := 0,
                current_segment :=
                  some ⟨max 0 (u2.frame_idx - COOLDOWN_START_FRAMES + 1), false⟩ } :=
    updateStreaks_cd_open u2 f3 hc3 hidle
      (by show COOLDOWN_START_FRAMES ≤ s.cooldown_frames + 1 + 1 + 1
          rw [hcf, COOLDOWN_START_FRAMES]; norm_num)
  refine ⟨⟨by rw [hA], by rw [hA]; exact hidle⟩, ?_⟩
  by_cases hred : f3.is_red_screen
  · have st3 : detectStep fps u2 f3 =
        { s with
          segments := s.segments ++ [⟨max 0 (u2.frame_idx - COOLDOWN_START_FRAMES + 1), s.frame_idx + 1 + 1, true⟩],
          cooldown_frames := s.cooldown_frames + 1 + 1 + 1,
          no_cooldown_frames := 0,
          current_segment := none,
          frame_idx := s.frame_idx + 1 + 1 + 1 } := by
      unfold detectStep
      rw [if_neg (by simp [hm3])]
      dsimp only
      rw [hopen]
      rw [closeCheck_some fps
            { u2 with cooldown_frames := u2.cooldown_frames + 1,
                      no_cooldown_frames := 0,
                      current_segment :=
                        some ⟨max 0 (u2.frame_idx - COOLDOWN_START_FRAMES + 1), false⟩ } f3
            ⟨max 0 (u2.frame_idx - COOLDOWN_START_FRAMES + 1), false⟩ rfl]
      rw [if_neg (timeout_zero_not fps)]
      rw [if_pos (by exact hred)]
    have hloop : detectLoop fps s [f1, f2, f3] =
        { s with
          segments := s.segments ++ [⟨max 0 (u2.frame_idx - COOLDOWN_START_FRAMES + 1), s.frame_idx + 1 + 1, true⟩],
          cooldown_frames := s.cooldown_frames + 1 + 1 + 1,
          no_cooldown_frames := 0,
          current_segment := none,
          frame_idx := s.frame_idx + 1 + 1 + 1 } := by
      simp only [detectLoop]
      rw [st1, st2, st3]
    rw [hloop]
    unfold windowStarts
    rw [hidle]
    show (s.segments ++ [(⟨max 0 (u2.frame_idx - COOLDOWN_START_FRAMES + 1), s.frame_idx + 1 + 1, true⟩ : Segment)]).map Segment.start_frame ++ [] =
      s.segments.map Segment.start_frame ++ [] ++ [s.frame_idx]
    rw [List.map_append, hmax]
    simp
  · have st3 : detectStep fps u2 f3 =
        { s with
          cooldown_frames := s.cooldown_frames + 1 + 1 + 1,
          no_cooldown_frames := 0,
          current_segment :=
            some ⟨max 0 (u2.frame_idx - COOLDOWN_START_FRAMES + 1), false⟩,
          frame_idx := s.frame_idx + 1 + 1 + 1 } := by
      unfold detectStep
      rw [if_neg (by simp [hm3])]
      dsimp only
      rw [hopen]
      rw [closeCheck_some fps
            { u2 with cooldown_frames := u2.cooldown_frames + 1,
                      no_cooldown_frames := 0,
                      current_segment :=
                        some ⟨max 0 (u2.frame_idx - COOLDOWN_START_FRAMES + 1), false⟩ } f3
            ⟨max 0 (u2.frame_idx - COOLDOWN_START_FRAMES + 1), false⟩ rfl]
      rw [if_neg (timeout_zero_not fps)]
      rw [if_neg (by simp [hred])]
    have hloop : detectLoop fps s [f1, f2, f3] =
        { s with
          cooldown_frames := s.cooldown_frames + 1 + 1 + 1,
          no_cooldown_frames := 0,
          current_segment :=
            some ⟨max 0 (u2.frame_idx - COOLDOWN_START_FRAMES + 1), false⟩,
          frame_idx := s.frame_idx + 1 + 1 + 1 } := by
      simp only [detectLoop]
      rw [st1, st2, st3]
    rw [hloop]
    unfold windowStarts
    rw [hidle]
    show s.segments.map Segment.start_frame ++ [max 0 (u2.frame_idx - COOLDOWN_START_FRAMES + 1)] =
      s.segments.map Segment.start_frame ++ [] ++ [s.frame_idx]
    rw [hmax]
    simp


/-- Witness for C6 on concrete frames from the initial state. -/
theorem c6_debounce_witness :
    ((detectLoop 60 initState [cdF, cdF, ncdF]).segments =
        initState.segments ∧
     (detectLoop 60 initState [cdF, cdF, ncdF]).current_segment = none) ∧
    windowStarts (detectLoop 60 initState [cdF, cdF, cdF]) =
      windowStarts initState ++ [initState.frame_idx] :=
  c6_debounce 60 initState cdF cdF cdF ncdF rfl rfl (by decide)
    (by decide) (by decide) (by decide) (by decide)
    (by decide) (by decide) (by decide) (by decide)

/-- Witness for C7 on the three-cooldown-frame stream at fps = 1. -/
theorem c7_clip_window_invariant_witness :
    c7window ∈ detect_combat_segments 1 3 [cdF, cdF, cdF] ∧
    (c7window.clip_start_frame ≤ c7window.start_frame ∧
     c7window.start_frame ≤ c7window.end_frame ∧
     c7window.end_frame ≤ c7window.clip_end_frame ∧
     0 ≤ c7window.clip_start_frame ∧
     c7window.clip_start_frame ≤ (3 : Int) - 1 ∧
     0 ≤ c7window.clip_end_frame ∧
     c7window.clip_end_frame ≤ (3 : Int) - 1) := by
  have hraw : rawSegments 1 [cdF, cdF, cdF] =
      [{ start_frame := 0, end_frame := 2, death := false }] := by
    simp only [rawSegments, bridge1]
    decide
  have hres : detect_combat_segments 1 3 [cdF, cdF, cdF] = [c7window] := by
    unfold detect_combat_segments
    rw [hraw, List.map_cons, List.map_nil]
    simp only [expandSegment, pyTruncInt, CLIP_BEFORE_SECONDS,
      CLIP_AFTER_SECONDS, c7window]
    norm_num [ClipSegment.mk.injEq, Segment.mk.injEq]
  have hmem : c7window ∈ detect_combat_segments 1 3 [cdF, cdF, cdF] := by
    rw [hres]
    exact List.mem_singleton.mpr rfl
  exact ⟨hmem, c7_clip_window_invariant 1 (by norm_num) [cdF, cdF, cdF] 3
    (by simp) c7window hmem⟩

end Albion
